import Mathlib

/-!
Shallow embedding of the array checker functions of
`pyvista/core/validate/array_checkers.py`.

Arrays are modelled by `NDArray`: a dtype tag, a shape (list of extents) and
row-major flattened data. Element values are exact rationals, which model the
order-theoretic behaviour of the numeric values the checkers compare. Each
`check_*` function of the source becomes a function returning
`Except PyErr Unit`: `.ok ()` models a silent return and `.error e` models a
raised exception with its Python exception class and message.
-/

/-- Python exception classes raised by the checkers. -/
inductive ErrKind where
  | typeError
  | valueError
  deriving DecidableEq, Repr

/-- A raised Python exception: its class and its message. -/
structure PyErr where
  kind : ErrKind
  msg : String
  deriving DecidableEq, Repr

/-- Result of one checker call: silent return or raised exception. -/
abbrev CheckResult := Except PyErr Unit

/-- NumPy scalar dtypes, as used by the checkers. -/
inductive DType where
  | bool_
  | int8 | int16 | int32 | int64
  | uint8 | uint16 | uint32 | uint64
  | float16 | float32 | float64
  | complex64 | complex128
  deriving DecidableEq, Repr

/-- Abstract NumPy dtype bases the source passes to `np.issubdtype`. -/
inductive DTypeBase where
  | number
  | integer
  | floating
  deriving DecidableEq, Repr

def DType.isInteger : DType → Bool
  | .int8 | .int16 | .int32 | .int64 => true
  | .uint8 | .uint16 | .uint32 | .uint64 => true
  | _ => false

def DType.isFloating : DType → Bool
  | .float16 | .float32 | .float64 => true
  | _ => false

def DType.isComplex : DType → Bool
  | .complex64 | .complex128 => true
  | _ => false

/-- `np.issubdtype d b`. Note `np.bool_` is not a subtype of `np.number`. -/
def npIssubdtype (d : DType) : DTypeBase → Bool
  | .integer => d.isInteger
  | .floating => d.isFloating
  | .number => d.isInteger || d.isFloating || d.isComplex

def DType.nameStr : DType → String
  | .bool_ => "bool"
  | .int8 => "int8"
  | .int16 => "int16"
  | .int32 => "int32"
  | .int64 => "int64"
  | .uint8 => "uint8"
  | .uint16 => "uint16"
  | .uint32 => "uint32"
  | .uint64 => "uint64"
  | .float16 => "float16"
  | .float32 => "float32"
  | .float64 => "float64"
  | .complex64 => "complex64"
  | .complex128 => "complex128"

def DTypeBase.nameStr : DTypeBase → String
  | .number => "numpy.number"
  | .integer => "numpy.integer"
  | .floating => "numpy.floating"

/-- An n-dimensional numeric array: dtype, shape, and row-major data. -/
structure NDArray where
  dtype : DType
  shape : List Nat
  data : List ℚ
  size_eq : data.length = shape.prod

def NDArray.ndim (arr : NDArray) : Nat := arr.shape.length

def NDArray.size (arr : NDArray) : Nat := arr.shape.prod

/-- `arr.flatten()`: row-major data is unchanged, shape becomes 1-D. -/
def NDArray.flatten (arr : NDArray) : NDArray :=
  ⟨arr.dtype, [arr.data.length], arr.data, by simp⟩

/-- Row-major linear index of a multi-index. -/
def linIndex (shape idx : List Nat) : Nat :=
  (shape.zip idx).foldl (fun acc p => acc * p.1 + p.2) 0

/-- Element at a multi-index (0 when out of range, which valid indices avoid). -/
def NDArray.get (arr : NDArray) (idx : List Nat) : ℚ :=
  arr.data.getD (linIndex arr.shape idx) 0

/-- All multi-indices of a shape, in row-major order. -/
def allIndices : List Nat → List (List Nat)
  | [] => [[]]
  | d :: rest => (List.range d).flatMap fun i => (allIndices rest).map (i :: ·)

/-- A 1-D array built from a data list. -/
def NDArray.ofVec (dt : DType) (data : List ℚ) : NDArray :=
  ⟨dt, [data.length], data, by simp⟩

/-- A 0-dimensional (scalar) array holding one value. -/
def NDArray.scalar (dt : DType) (x : ℚ) : NDArray := ⟨dt, [], [x], rfl⟩

/-- A 2-element 1-D array. -/
def NDArray.vec2 (dt : DType) (x y : ℚ) : NDArray := ⟨dt, [2], [x, y], rfl⟩

/-- A 0-dimensional array holding one integer, as built from a Python int. -/
def NDArray.intScalar (a : Int) : NDArray := ⟨.int64, [], [(a : ℚ)], rfl⟩

/-- A 2-element integer 1-D array, as built from a Python list of two ints. -/
def NDArray.intVec2 (x y : Int) : NDArray := ⟨.int64, [2], [(x : ℚ), (y : ℚ)], rfl⟩

/-!
Shape specifications (`ShapeLike = Union[int, Tuple[int, ...]]` in the source;
`check_shape` additionally accepts a list of ShapeLike alternatives).
-/

/-- One shape specification: a bare int `i` (meaning `(i,)`) or a tuple. -/
inductive ShapeLike where
  | int : Int → ShapeLike
  | tup : List Int → ShapeLike
  deriving DecidableEq, Repr

/-- The `shape` argument of `check_shape`: a single spec or a list of specs. -/
inductive ShapeArg where
  | single : ShapeLike → ShapeArg
  | listed : List ShapeLike → ShapeArg
  deriving DecidableEq, Repr

/-- The source wraps a non-list `shape` argument into a one-element list. -/
def ShapeArg.toList : ShapeArg → List ShapeLike
  | .single s => [s]
  | .listed l => l

/-- Tuple form of a shape spec, as `_validate_shape_value` returns it. -/
def ShapeLike.toTuple : ShapeLike → List Int
  | .int i => [i]
  | .tup t => t

/-- `_is_valid_dim` of `_validate_shape_value`: an int `>= -1`. -/
def isValidDim (d : Int) : Bool := -1 ≤ d

/-- A shape spec all of whose entries are valid dimensions. -/
def ShapeLike.valid : ShapeLike → Bool
  | .int i => isValidDim i
  | .tup t => t.all isValidDim

/-- Error raised by `_validate_shape_value` for an entry below -1: it comes
from `check_greater_than(shape, -1, strict=False, name="Shape")`. -/
def shapeDimError : PyErr :=
  ⟨.valueError, "Shape values must all be greater than or equal to -1."⟩

/-- `_validate_shape_value`: validate a shape spec and return its tuple form.
The early-return branches of the source for `()` and common tuples return the
input unchanged and agree with the general branch, so they are not repeated
here. The `None` branch cannot arise: `ShapeLike` has no `None` value. -/
def validateShapeValue : ShapeLike → Except PyErr (List Int)
  | .int i => if isValidDim i then .ok [i] else .error shapeDimError
  | .tup t => if t.all isValidDim then .ok t else .error shapeDimError

/-- `_shape_is_allowed(a, b)`: equal length and entrywise equal or -1 in b. -/
def shapeIsAllowed (a : List Nat) (b : List Int) : Bool :=
  a.length == b.length && (a.zip b).all fun p => ((p.1 : Int) == p.2) || (p.2 == -1)

/-- Python repr of a shape tuple, e.g. `(2, 3)`, `(2,)`, `()`. -/
def shapeTupleRepr (s : List Int) : String :=
  match s with
  | [] => "()"
  | [d] => "(" ++ toString d ++ ",)"
  | _ => "(" ++ String.intercalate ", " (s.map toString) ++ ")"

/-- Python repr of a shape spec as it appears in error messages. -/
def ShapeLike.reprStr : ShapeLike → String
  | .int i => toString i
  | .tup t => shapeTupleRepr t

def shapeListRepr (l : List ShapeLike) : String :=
  "[" ++ String.intercalate ", " (l.map ShapeLike.reprStr) ++ "]"

def natShapeRepr (s : List Nat) : String := shapeTupleRepr (s.map Int.ofNat)

/-- The error message `check_shape` raises when no alternative matches: it
names the array shape and lists the allowed alternatives verbatim. -/
def checkShapeErrorMsg (name : String) (arrShape : List Nat)
    (shapes : List ShapeLike) : String :=
  name ++ " has shape " ++ natShapeRepr arrShape ++ " which is not allowed. " ++
    (if shapes.length == 1 then
      "Shape must be " ++ (shapes.headD (.int 0)).reprStr ++ "."
    else
      "Shape must be one of " ++ shapeListRepr shapes ++ ".")

/-- The loop of `check_shape`: validate each alternative in turn and report
whether some alternative matches the array shape. -/
def shapeMatchAny (arrShape : List Nat) : List ShapeLike → Except PyErr Bool
  | [] => .ok false
  | s :: rest => do
    let t ← validateShapeValue s
    if shapeIsAllowed arrShape t then pure true else shapeMatchAny arrShape rest

/-- `check_shape(arr, shape, name="Array")`. -/
def checkShape (arr : NDArray) (shape : ShapeArg) (name : String := "Array") :
    CheckResult :=
  let shapes := shape.toList
  match shapeMatchAny arr.shape shapes with
  | .error e => .error e
  | .ok true => .ok ()
  | .ok false => .error ⟨.valueError, checkShapeErrorMsg name arr.shape shapes⟩

/-!
Dtype checkers: `check_subdtype`, `check_numeric`, `check_real`,
`check_integerlike`.
-/

/-- Error message of `check_subdtype`. -/
def subdtypeErrorMsg (name : String) (d : DType) (bases : List DTypeBase) :
    String :=
  name ++ " has incorrect dtype of " ++ d.nameStr ++ ". " ++
    (if bases.length == 1 then
      "The dtype must be a subtype of " ++ (bases.headD .number).nameStr ++ "."
    else
      "The dtype must be a subtype of at least one of " ++
        String.intercalate ", " (bases.map DTypeBase.nameStr) ++ ".")

/-- `check_subdtype(input_obj, base_dtype, name="Input")`. Arrays are reduced
to their dtype by the source before the subtype test, so the embedding takes
the dtype directly. A non-list `base_dtype` is wrapped into a one-element list
by the source; callers below pass the list form. -/
def checkSubdtype (d : DType) (bases : List DTypeBase)
    (name : String := "Input") : CheckResult :=
  if bases.any (npIssubdtype d) then .ok ()
  else .error ⟨.typeError, subdtypeErrorMsg name d bases⟩

/-- `check_numeric(arr, name="Array")`: early return for common dtypes
(`np.complex_` is `complex128`), otherwise `check_subdtype(arr, np.number)`
with the message replaced. -/
def checkNumeric (arr : NDArray) (name : String := "Array") : CheckResult :=
  if arr.dtype ∈ [DType.int32, .int64, .float32, .float64, .complex128]
  then .ok ()
  else
    match checkSubdtype arr.dtype [.number] name with
    | .ok _ => .ok ()
    | .error _ => .error ⟨.typeError, name ++ " must be numeric."⟩

/-- `check_real(arr, name="Array")`: early return for common dtypes, otherwise
`check_subdtype(arr, (np.floating, np.integer))` with the message replaced. -/
def checkReal (arr : NDArray) (name : String := "Array") : CheckResult :=
  if arr.dtype ∈ [DType.int32, .int64, .float32, .float64]
  then .ok ()
  else
    match checkSubdtype arr.dtype [.floating, .integer] name with
    | .ok _ => .ok ()
    | .error _ => .error ⟨.typeError, name ++ " must have real numbers."⟩

/-- `check_integerlike(arr, strict=False, name="Array")`. The strict branch
calls `check_subdtype(arr, np.integer)` with its default name `"Input"` and
propagates its error; the non-strict branch is `np.array_equal(arr,
np.floor(arr))`, i.e. every element equals its own floor. -/
def checkIntegerlike (arr : NDArray) (strict : Bool := false)
    (name : String := "Array") : CheckResult :=
  if strict then checkSubdtype arr.dtype [.integer]
  else if arr.data.all (fun x => decide (x = (⌊x⌋ : ℚ))) then .ok ()
  else .error ⟨.valueError, name ++ " must have integer-like values."⟩

/-!
Sorting, bound, and range checkers: `check_sorted`, `check_greater_than`,
`check_less_than`, `check_range`.
-/

/-- The pairwise comparison `check_sorted` selects from ascending and strict:
`<=`, `<`, `>=`, `>`, in the branch order of the source. -/
def relBool (ascending strict : Bool) : ℚ → ℚ → Bool :=
  if ascending && !strict then fun x y => decide (x ≤ y)
  else if ascending && strict then fun x y => decide (x < y)
  else if !ascending && !strict then fun x y => decide (y ≤ x)
  else fun x y => decide (y < x)

/-- Shape of the sliced views `arr[first]` and `arr[second]` of `check_sorted`:
the extent along `axis` drops by one. -/
def reducedShape (arr : NDArray) (axis : Nat) : List Nat :=
  arr.shape.set axis (arr.shape.getD axis 0 - 1)

/-- Step a multi-index one place along `axis`, from `arr[first]` coordinates
to the matching `arr[second]` coordinates. -/
def bumpIdx (axis : Nat) (idx : List Nat) : List Nat :=
  idx.set axis (idx.getD axis 0 + 1)

/-- The `is_sorted` value of `check_sorted`: the chosen comparison holds for
every adjacent pair along `axis` (i.e. `np.all` over the compared slices). -/
def sortedBool (arr : NDArray) (ascending strict : Bool) (axis : Nat) : Bool :=
  (allIndices (reducedShape arr axis)).all fun idx =>
    relBool ascending strict (arr.get idx) (arr.get (bumpIdx axis idx))

def sortedOrderWord (ascending : Bool) : String :=
  if ascending then "ascending" else "descending"

def sortedStrictWord (strict : Bool) : String := if strict then "strict " else ""

/-- Simple rendering of an array for error messages. -/
def NDArray.reprStr (arr : NDArray) : String := toString arr.data

/-- The error message of `check_sorted`: small arrays are shown literally,
larger ones by their element count. -/
def sortedErrorMsg (name : String) (arr : NDArray) (ascending strict : Bool) :
    String :=
  let body :=
    if arr.size ≤ 4 then arr.reprStr
    else "with " ++ toString arr.size ++ " elements"
  name ++ " " ++ body ++ " must be sorted in " ++ sortedStrictWord strict ++
    sortedOrderWord ascending ++ " order."

/-- The tail of `check_sorted`, after the axis has been validated and
normalized to a non-negative index: compare adjacent pairs along `axis` and
raise if some pair violates the chosen order. -/
def checkSortedResolved (arr : NDArray) (ascending strict : Bool) (axis : Nat)
    (name : String) : CheckResult :=
  if sortedBool arr ascending strict axis then .ok ()
  else .error ⟨.valueError, sortedErrorMsg name arr ascending strict⟩

/-- `check_sorted(arr, name=...)` with `ascending`, `strict` and `axis` left
at their defaults (`True`, `False`, `-1`): 0-d arrays return early, otherwise
the default axis `-1` skips axis validation and resolves to `ndim - 1`. The
fully general `check_sorted` is defined below (after `check_range`, which it
calls to validate a non-default axis — while `check_range` itself calls
`check_sorted` only with default options, which is this function); the lemma
`checkSorted_defaults` proves the two agree. -/
def checkSortedDefaultArgs (arr : NDArray) (name : String) : CheckResult :=
  if arr.ndim = 0 then .ok ()
  else checkSortedResolved arr true false (arr.ndim - 1) name

def greaterStrictMsg (name : String) (value : ℚ) : String :=
  name ++ " values must all be greater than " ++ toString value ++ "."

def greaterEqualMsg (name : String) (value : ℚ) : String :=
  name ++ " values must all be greater than or equal to " ++ toString value ++ "."

/-- `check_greater_than(arr, value, strict=True, name="Array")`. The calls
`check_number(value)` and `check_real(value)` of the source always succeed
here: `value` is a real scalar by type. -/
def checkGreaterThan (arr : NDArray) (value : ℚ) (strict : Bool := true)
    (name : String := "Array") : CheckResult :=
  if strict && !(arr.data.all fun x => decide (value < x)) then
    .error ⟨.valueError, greaterStrictMsg name value⟩
  else if !(arr.data.all fun x => decide (value ≤ x)) then
    .error ⟨.valueError, greaterEqualMsg name value⟩
  else .ok ()

def lessStrictMsg (name : String) (value : ℚ) : String :=
  name ++ " values must all be less than " ++ toString value ++ "."

def lessEqualMsg (name : String) (value : ℚ) : String :=
  name ++ " values must all be less than or equal to " ++ toString value ++ "."

/-- `check_less_than(arr, value, strict=True, name="Array")`. -/
def checkLessThan (arr : NDArray) (value : ℚ) (strict : Bool := true)
    (name : String := "Array") : CheckResult :=
  if strict && !(arr.data.all fun x => decide (x < value)) then
    .error ⟨.valueError, lessStrictMsg name value⟩
  else if !(arr.data.all fun x => decide (x ≤ value)) then
    .error ⟨.valueError, lessEqualMsg name value⟩
  else .ok ()

/-- `check_range(arr, rng, strict_lower=False, strict_upper=False,
name="Array")`: the range is validated first (`check_shape(rng, 2)` then
`check_sorted(rng)` with default options, both under the name `"Range"`),
then the array is checked against `rng[0]` and `rng[1]`. -/
def checkRange (arr : NDArray) (rng : NDArray) (strict_lower : Bool := false)
    (strict_upper : Bool := false) (name : String := "Array") : CheckResult := do
  checkShape rng (.single (.int 2)) "Range"
  checkSortedDefaultArgs rng "Range"
  checkGreaterThan arr (rng.data.getD 0 0) strict_lower name
  checkLessThan arr (rng.data.getD 1 0) strict_upper name

/-- Error message for an out-of-bounds `axis` in `check_sorted`. -/
def axisOobMsg (axis : Int) (ndim : Nat) : String :=
  "Axis " ++ toString axis ++ " is out of bounds for ndim " ++ toString ndim ++ "."

/-- `check_sorted(arr, ascending=True, strict=False, axis=-1, name="Array")`.
A 0-d array returns early. `axis=None` flattens the array and proceeds with
axis `-1`, which resolves to the last (only) axis. A non-`-1` axis is
validated: `check_number` and `check_integerlike` always pass for an `Int`
axis, then `check_range(axis, [-ndim, ndim - 1], name="Axis")` must pass, any
`ValueError` from it being replaced by the out-of-bounds message (no other
exception kind can arise there). A negative axis is then converted by adding
`ndim`. -/
def checkSorted (arr : NDArray) (ascending : Bool := true)
    (strict : Bool := false) (axis : Option Int := some (-1))
    (name : String := "Array") : CheckResult :=
  if arr.ndim = 0 then .ok ()
  else
    match axis with
    | none => checkSortedResolved arr.flatten ascending strict
        (arr.flatten.ndim - 1) name
    | some a =>
      if a = -1 then checkSortedResolved arr ascending strict (arr.ndim - 1) name
      else
        match checkRange (.intScalar a)
            (.intVec2 (-(arr.ndim : Int)) ((arr.ndim : Int) - 1))
            false false "Axis" with
        | .error _ => .error ⟨.valueError, axisOobMsg a arr.ndim⟩
        | .ok _ =>
          let ax : Int := if a < 0 then (arr.ndim : Int) + a else a
          checkSortedResolved arr ascending strict ax.toNat name

deriving instance DecidableEq for Except

/-!
Specification-side predicates, written from the wording of the spec, to be
compared with the embedded checkers.
-/

/-- A multi-index valid for a shape: same length, each entry within bounds. -/
def validIdx (shape idx : List Nat) : Prop :=
  idx.length = shape.length ∧ ∀ k, k < shape.length → idx.getD k 0 < shape.getD k 0

/-- The order relation of the spec: ascending or descending, strict or not. -/
def specRel (ascending strict : Bool) : ℚ → ℚ → Prop := fun x y =>
  if ascending then (if strict then x < y else x ≤ y)
  else (if strict then y < x else y ≤ x)

/-- The spec's sortedness: each adjacent pair of elements along `axis`
satisfies the relation; pairs are indexed by multi-indices of the shape with
the extent along `axis` reduced by one. -/
def sortedSpec (arr : NDArray) (axis : Nat) (R : ℚ → ℚ → Prop) : Prop :=
  ∀ idx, validIdx (reducedShape arr axis) idx →
    R (arr.get idx) (arr.get (bumpIdx axis idx))

/-- The spec's shape matching: the number of dimensions equals the length of
the alternative, and every axis extent equals the entry or the entry is -1. -/
def specShapeMatches (actual : List Nat) (alt : List Int) : Prop :=
  actual.length = alt.length ∧
    ∀ k, k < alt.length → ((actual.getD k 0 : Int) = alt.getD k 0 ∨ alt.getD k 0 = -1)

/-!
Helper lemmas.
-/

theorem bind_ok (f : Unit → CheckResult) : ((.ok () : CheckResult) >>= f) = f () := rfl

theorem bind_error (e : PyErr) (f : Unit → CheckResult) :
    ((.error e : CheckResult) >>= f) = .error e := rfl

theorem bind_ok_iff (a : CheckResult) (f : Unit → CheckResult) :
    (a >>= f) = .ok () ↔ a = .ok () ∧ f () = .ok () := by
  cases a with
  | ok u => cases u; rw [bind_ok]; simp
  | error e => rw [bind_error]; simp

theorem relBool_iff (ascending strict : Bool) (x y : ℚ) :
    relBool ascending strict x y = true ↔ specRel ascending strict x y := by
  cases ascending <;> cases strict <;> simp [relBool, specRel]

theorem mem_allIndices (shape : List Nat) :
    ∀ idx, idx ∈ allIndices shape ↔ validIdx shape idx := by
  induction shape with
  | nil =>
    intro idx
    simp only [allIndices, List.mem_singleton, validIdx, List.length_nil]
    constructor
    · rintro rfl; simp
    · rintro ⟨h, -⟩; exact List.eq_nil_of_length_eq_zero h
  | cons d rest ih =>
    intro idx
    simp only [allIndices, List.mem_flatMap, List.mem_map, List.mem_range]
    constructor
    · rintro ⟨i, hi, tl, htl, rfl⟩
      obtain ⟨hlen, hbound⟩ := (ih tl).mp htl
      refine ⟨by simpa using hlen, ?_⟩
      intro k hk
      cases k with
      | zero => simpa using hi
      | succ k => simpa using hbound k (by simpa using hk)
    · rintro ⟨hlen, hbound⟩
      cases idx with
      | nil => simp at hlen
      | cons i tl =>
        refine ⟨i, by simpa using hbound 0 (by simp), tl, (ih tl).mpr ⟨?_, ?_⟩, rfl⟩
        · simpa using hlen
        · intro k hk
          simpa using hbound (k + 1) (by simpa using hk)

theorem sortedBool_iff (arr : NDArray) (ascending strict : Bool) (axis : Nat) :
    sortedBool arr ascending strict axis = true ↔
      sortedSpec arr axis (specRel ascending strict) := by
  simp only [sortedBool, List.all_eq_true, sortedSpec]
  constructor
  · intro h idx hidx
    exact (relBool_iff _ _ _ _).mp (h idx ((mem_allIndices _ idx).mpr hidx))
  · intro h idx hidx
    exact (relBool_iff _ _ _ _).mpr (h idx ((mem_allIndices _ idx).mp hidx))

theorem checkSortedResolved_ok_iff (arr : NDArray) (ascending strict : Bool)
    (axis : Nat) (name : String) :
    checkSortedResolved arr ascending strict axis name = .ok () ↔
      sortedSpec arr axis (specRel ascending strict) := by
  rw [← sortedBool_iff]
  unfold checkSortedResolved
  split <;> simp_all

theorem shapeIsAllowed_iff : ∀ (a : List Nat) (b : List Int),
    shapeIsAllowed a b = true ↔ specShapeMatches a b
  | [], [] => by simp [shapeIsAllowed, specShapeMatches]
  | [], y :: b => by simp [shapeIsAllowed, specShapeMatches]
  | x :: a, [] => by simp [shapeIsAllowed, specShapeMatches]
  | x :: a, y :: b => by
    have ih := shapeIsAllowed_iff a b
    simp only [shapeIsAllowed, specShapeMatches, List.zip_cons_cons, List.all_cons,
      List.length_cons, Bool.and_eq_true, beq_iff_eq, Bool.or_eq_true,
      Nat.succ_inj'] at ih ⊢
    constructor
    · rintro ⟨hlen, hxy, hrest⟩
      obtain ⟨hlen', hbound⟩ := ih.mp ⟨hlen, hrest⟩
      refine ⟨hlen', ?_⟩
      intro k hk
      cases k with
      | zero => simpa using hxy
      | succ k => simpa using hbound k (by simpa using hk)
    · rintro ⟨hlen, hbound⟩
      have hxy : (x : Int) = y ∨ y = -1 := by simpa using hbound 0 (by simp)
      have hrest := ih.mpr ⟨hlen, fun k hk => by
        simpa using hbound (k + 1) (by simpa using hk)⟩
      exact ⟨hrest.1, by simpa using hxy, hrest.2⟩

theorem validateShapeValue_of_valid (s : ShapeLike) (h : s.valid = true) :
    validateShapeValue s = .ok s.toTuple := by
  cases s <;> simp_all [ShapeLike.valid, validateShapeValue, ShapeLike.toTuple]

theorem shapeMatchAny_of_valid (arrShape : List Nat) :
    ∀ shapes : List ShapeLike, (∀ s ∈ shapes, s.valid = true) →
      shapeMatchAny arrShape shapes =
        .ok (shapes.any fun s => shapeIsAllowed arrShape s.toTuple)
  | [], _ => rfl
  | s :: rest, h => by
    have hs := h s (by simp)
    have hrest := shapeMatchAny_of_valid arrShape rest fun t ht => h t (by simp [ht])
    have hstep : shapeMatchAny arrShape (s :: rest) =
        if shapeIsAllowed arrShape s.toTuple then .ok true
        else shapeMatchAny arrShape rest := by
      simp only [shapeMatchAny, validateShapeValue_of_valid s hs]
      rfl
    rw [hstep, List.any_cons]
    by_cases hm : shapeIsAllowed arrShape s.toTuple
    · simp [hm]
    · simp only [Bool.not_eq_true] at hm
      simp [hm, hrest]

theorem checkShape_eq_of_valid (arr : NDArray) (spec : ShapeArg) (name : String)
    (h : ∀ s ∈ spec.toList, s.valid = true) :
    checkShape arr spec name =
      if spec.toList.any (fun s => shapeIsAllowed arr.shape s.toTuple) then .ok ()
      else .error ⟨.valueError, checkShapeErrorMsg name arr.shape spec.toList⟩ := by
  simp only [checkShape]
  rw [shapeMatchAny_of_valid arr.shape spec.toList h]
  cases hb : spec.toList.any fun s => shapeIsAllowed arr.shape s.toTuple <;> simp [hb]

theorem shapeIsAllowed_two (a : List Nat) :
    shapeIsAllowed a [(2 : Int)] = true ↔ a = [2] := by
  match a with
  | [] => simp [shapeIsAllowed]
  | [x] =>
    simp only [shapeIsAllowed, List.zip_cons_cons, List.zip_nil_right, List.all_cons,
      List.all_nil, Bool.and_true, List.length_singleton, beq_iff_eq, Bool.or_eq_true,
      Bool.and_eq_true, List.cons.injEq, and_true]
    constructor
    · rintro ⟨-, hx | hx⟩
      · exact_mod_cast hx
      · exact absurd hx (by decide)
    · rintro rfl; simp
  | x :: y :: rest => simp [shapeIsAllowed]

theorem checkGreaterThan_ok_iff (arr : NDArray) (value : ℚ) (strict : Bool)
    (name : String) :
    checkGreaterThan arr value strict name = .ok () ↔
      ∀ x ∈ arr.data, if strict then value < x else value ≤ x := by
  cases strict with
  | false => unfold checkGreaterThan; split <;> simp_all [List.all_eq_true]
  | true =>
    unfold checkGreaterThan
    by_cases hall : ∀ x ∈ arr.data, value < x
    · have hb1 : (arr.data.all fun x => decide (value < x)) = true := by
        simp only [List.all_eq_true, decide_eq_true_eq]
        exact hall
      have hb2 : (arr.data.all fun x => decide (value ≤ x)) = true := by
        simp only [List.all_eq_true, decide_eq_true_eq]
        exact fun x hx => le_of_lt (hall x hx)
      simpa [hb1, hb2] using hall
    · have hb1 : (arr.data.all fun x => decide (value < x)) = false := by
        simpa [List.all_eq_true, Bool.not_eq_true] using
          (by simpa [List.all_eq_true] using hall :
            ¬(arr.data.all fun x => decide (value < x)) = true)
      simp [hb1, hall]

theorem checkLessThan_ok_iff (arr : NDArray) (value : ℚ) (strict : Bool)
    (name : String) :
    checkLessThan arr value strict name = .ok () ↔
      ∀ x ∈ arr.data, if strict then x < value else x ≤ value := by
  cases strict with
  | false => unfold checkLessThan; split <;> simp_all [List.all_eq_true]
  | true =>
    unfold checkLessThan
    by_cases hall : ∀ x ∈ arr.data, x < value
    · have hb1 : (arr.data.all fun x => decide (x < value)) = true := by
        simp only [List.all_eq_true, decide_eq_true_eq]
        exact hall
      have hb2 : (arr.data.all fun x => decide (x ≤ value)) = true := by
        simp only [List.all_eq_true, decide_eq_true_eq]
        exact fun x hx => le_of_lt (hall x hx)
      simpa [hb1, hb2] using hall
    · have hb1 : (arr.data.all fun x => decide (x < value)) = false := by
        simpa [List.all_eq_true, Bool.not_eq_true] using
          (by simpa [List.all_eq_true] using hall :
            ¬(arr.data.all fun x => decide (x < value)) = true)
      simp [hb1, hall]

theorem sortedSpec_oneD (arr : NDArray) (n : Nat) (h : arr.shape = [n])
    (R : ℚ → ℚ → Prop) :
    sortedSpec arr 0 R ↔
      ∀ i, i + 1 < n → R (arr.data.getD i 0) (arr.data.getD (i + 1) 0) := by
  have hred : reducedShape arr 0 = [n - 1] := by simp [reducedShape, h]
  have hget : ∀ i : Nat, arr.get [i] = arr.data.getD i 0 := by
    intro i; simp [NDArray.get, linIndex, h]
  have hbump : ∀ i : Nat, bumpIdx 0 [i] = [i + 1] := by
    intro i; simp [bumpIdx]
  constructor
  · intro hs i hi
    have := hs [i] (by
      constructor
      · simp [hred]
      · intro k hk
        have hk0 : k = 0 := by simp [hred] at hk; omega
        subst hk0
        simp [hred]
        omega)
    rwa [hget, hbump, hget] at this
  · intro hp idx hidx
    obtain ⟨hlen, hbound⟩ := hidx
    rw [hred] at hlen hbound
    obtain ⟨i, rfl⟩ := List.length_eq_one.mp (by simpa using hlen)
    have hi : i < n - 1 := by simpa using hbound 0 (by simp)
    rw [hget, hbump, hget]
    exact hp i (by omega)

theorem sorted_vec2_iff (rng : NDArray) (h : rng.shape = [2]) :
    sortedSpec rng 0 (specRel true false) ↔
      rng.data.getD 0 0 ≤ rng.data.getD 1 0 := by
  rw [sortedSpec_oneD rng 2 h]
  constructor
  · intro hp
    simpa [specRel] using hp 0 (by norm_num)
  · intro hle i hi
    have hi0 : i = 0 := by omega
    subst hi0
    simpa [specRel] using hle

theorem checkSortedDefaultArgs_vec2 (rng : NDArray) (h : rng.shape = [2])
    (name : String) :
    checkSortedDefaultArgs rng name =
      if rng.data.getD 0 0 ≤ rng.data.getD 1 0 then .ok ()
      else .error ⟨.valueError, sortedErrorMsg name rng true false⟩ := by
  unfold checkSortedDefaultArgs
  rw [if_neg (by simp [NDArray.ndim, h]),
    show rng.ndim - 1 = 0 by simp [NDArray.ndim, h]]
  unfold checkSortedResolved
  by_cases hle : rng.data.getD 0 0 ≤ rng.data.getD 1 0
  · rw [if_pos ((sortedBool_iff rng true false 0).mpr
      ((sorted_vec2_iff rng h).mpr hle)), if_pos hle]
  · rw [if_neg (fun hc => hle ((sorted_vec2_iff rng h).mp
      ((sortedBool_iff rng true false 0).mp hc))), if_neg hle]

theorem checkShape_range_two (rng : NDArray) :
    checkShape rng (.single (.int 2)) "Range" =
      if rng.shape = [2] then .ok ()
      else .error ⟨.valueError, checkShapeErrorMsg "Range" rng.shape [.int 2]⟩ := by
  rw [checkShape_eq_of_valid _ _ _
    (by intro s hs; simp [ShapeArg.toList] at hs; subst hs; rfl)]
  simp only [ShapeArg.toList, List.any_cons, List.any_nil, Bool.or_false]
  by_cases h2 : rng.shape = [2]
  · rw [if_pos (by rw [show (ShapeLike.int 2).toTuple = [(2 : Int)] from rfl,
      shapeIsAllowed_two]; exact h2), if_pos h2]
  · rw [if_neg (by rw [show (ShapeLike.int 2).toTuple = [(2 : Int)] from rfl,
      shapeIsAllowed_two]; exact h2), if_neg h2]

theorem checkRange_shape_error (arr rng : NDArray) (sl su : Bool) (name : String)
    (h : rng.shape ≠ [2]) :
    checkRange arr rng sl su name =
      .error ⟨.valueError, checkShapeErrorMsg "Range" rng.shape [.int 2]⟩ := by
  unfold checkRange
  rw [checkShape_range_two, if_neg h, bind_error]

theorem checkRange_sorted_error (arr rng : NDArray) (sl su : Bool) (name : String)
    (h2 : rng.shape = [2]) (hs : rng.data.getD 1 0 < rng.data.getD 0 0) :
    checkRange arr rng sl su name =
      .error ⟨.valueError, sortedErrorMsg "Range" rng true false⟩ := by
  unfold checkRange
  rw [checkShape_range_two, if_pos h2, bind_ok, checkSortedDefaultArgs_vec2 rng h2,
    if_neg (not_le.mpr hs), bind_error]

theorem checkRange_ok_iff (arr rng : NDArray) (sl su : Bool) (name : String)
    (h2 : rng.shape = [2]) (hs : rng.data.getD 0 0 ≤ rng.data.getD 1 0) :
    checkRange arr rng sl su name = .ok () ↔
      ((∀ x ∈ arr.data,
          if sl then rng.data.getD 0 0 < x else rng.data.getD 0 0 ≤ x) ∧
        (∀ x ∈ arr.data,
          if su then x < rng.data.getD 1 0 else x ≤ rng.data.getD 1 0)) := by
  unfold checkRange
  rw [checkShape_range_two, if_pos h2, bind_ok, checkSortedDefaultArgs_vec2 rng h2,
    if_pos hs, bind_ok, bind_ok_iff, checkGreaterThan_ok_iff, checkLessThan_ok_iff]

theorem axisCheck_ok_iff (n : Nat) (a : Int) (hn : 1 ≤ n) :
    checkRange (.intScalar a) (.intVec2 (-(n : Int)) ((n : Int) - 1))
        false false "Axis" = .ok () ↔
      (-(n : Int) ≤ a ∧ a ≤ (n : Int) - 1) := by
  rw [checkRange_ok_iff _ _ _ _ _ rfl (by
    show ((-(n : Int) : Int) : ℚ) ≤ (((n : Int) - 1 : Int) : ℚ)
    push_cast
    have : (1 : ℚ) ≤ (n : ℚ) := by exact_mod_cast hn
    linarith)]
  simp only [NDArray.intScalar, NDArray.intVec2, List.mem_singleton, if_false,
    List.getD_cons_zero, List.getD_cons_succ, if_neg (by simp : ¬False)]
  constructor
  · rintro ⟨h1, h2⟩
    have ha1 := h1 ((a : Int) : ℚ) rfl
    have ha2 := h2 ((a : Int) : ℚ) rfl
    constructor <;> [exact_mod_cast ha1; exact_mod_cast ha2]
  · rintro ⟨h1, h2⟩
    constructor
    · rintro x rfl
      exact_mod_cast h1
    · rintro x rfl
      exact_mod_cast h2

theorem checkSorted_defaults (arr : NDArray) (name : String) :
    checkSorted arr true false (some (-1)) name = checkSortedDefaultArgs arr name := by
  unfold checkSorted checkSortedDefaultArgs
  by_cases h : arr.ndim = 0
  · rw [if_pos h, if_pos h]
  · rw [if_neg h, if_neg h]
    rfl

theorem checkSorted_someAxis (arr : NDArray) (ascending strict : Bool) (a : Int)
    (name : String) (h0 : arr.ndim ≠ 0) (h1 : -(arr.ndim : Int) ≤ a)
    (h2 : a ≤ (arr.ndim : Int) - 1) :
    checkSorted arr ascending strict (some a) name =
      checkSortedResolved arr ascending strict
        (if a < 0 then (arr.ndim : Int) + a else a).toNat name := by
  unfold checkSorted
  rw [if_neg h0]
  by_cases ha : a = -1
  · subst ha
    rw [show ((if (-1 : Int) < 0 then (arr.ndim : Int) + -1 else -1)).toNat
        = arr.ndim - 1 by rw [if_pos (by norm_num)]; omega]
    rfl
  · have hok := (axisCheck_ok_iff arr.ndim a (by omega)).mpr ⟨h1, h2⟩
    show (if a = -1 then _ else _) = _
    rw [if_neg ha, hok]

theorem checkSubdtype_ok_iff (d : DType) (bases : List DTypeBase) (name : String) :
    checkSubdtype d bases name = .ok () ↔ bases.any (npIssubdtype d) = true := by
  unfold checkSubdtype
  split <;> simp_all

theorem checkReal_ok_iff (arr : NDArray) (name : String) :
    checkReal arr name = .ok () ↔ (arr.dtype.isFloating || arr.dtype.isInteger) = true := by
  cases h : arr.dtype <;>
    simp [checkReal, checkSubdtype, npIssubdtype, DType.isInteger, DType.isFloating,
      DType.isComplex, h]

theorem checkReal_error (arr : NDArray) (name : String)
    (h : (arr.dtype.isFloating || arr.dtype.isInteger) = false) :
    checkReal arr name = .error ⟨.typeError, name ++ " must have real numbers."⟩ := by
  cases hd : arr.dtype <;> rw [hd] at h <;>
    simp_all [checkReal, checkSubdtype, npIssubdtype, DType.isInteger,
      DType.isFloating, DType.isComplex]

theorem checkNumeric_ok_iff (arr : NDArray) (name : String) :
    checkNumeric arr name = .ok () ↔ npIssubdtype arr.dtype .number = true := by
  cases h : arr.dtype <;>
    simp [checkNumeric, checkSubdtype, npIssubdtype, DType.isInteger, DType.isFloating,
      DType.isComplex, h]

theorem checkNumeric_error (arr : NDArray) (name : String)
    (h : npIssubdtype arr.dtype .number = false) :
    checkNumeric arr name = .error ⟨.typeError, name ++ " must be numeric."⟩ := by
  cases hd : arr.dtype <;> rw [hd] at h <;>
    simp_all [checkNumeric, checkSubdtype, npIssubdtype, DType.isInteger,
      DType.isFloating, DType.isComplex]

theorem checkIntegerlike_strict_eq (arr : NDArray) (name : String) :
    checkIntegerlike arr true name = checkSubdtype arr.dtype [.integer] "Input" := rfl

theorem checkSubdtype_integer (d : DType) (name : String) :
    checkSubdtype d [.integer] name =
      if d.isInteger then .ok ()
      else .error ⟨.typeError, subdtypeErrorMsg name d [.integer]⟩ := by
  unfold checkSubdtype
  cases h : d.isInteger <;> simp [npIssubdtype, h]

theorem checkIntegerlike_nonstrict_iff (arr : NDArray) (name : String) :
    checkIntegerlike arr false name = .ok () ↔ ∀ x ∈ arr.data, x = (⌊x⌋ : ℚ) := by
  unfold checkIntegerlike
  split <;> simp_all [List.all_eq_true]

theorem checkIntegerlike_nonstrict_error (arr : NDArray) (name : String)
    (h : ¬∀ x ∈ arr.data, x = (⌊x⌋ : ℚ)) :
    checkIntegerlike arr false name =
      .error ⟨.valueError, name ++ " must have integer-like values."⟩ := by
  unfold checkIntegerlike
  rw [if_neg (by simp), if_neg (by simpa [List.all_eq_true] using h)]

theorem checkSorted_none_eq (arr : NDArray) (ascending strict : Bool) (name : String)
    (h0 : arr.ndim ≠ 0) :
    checkSorted arr ascending strict none name =
      checkSortedResolved arr.flatten ascending strict 0 name := by
  unfold checkSorted
  rw [if_neg h0]
  rfl

theorem checkSorted_zero_dim (arr : NDArray) (ascending strict : Bool)
    (axis : Option Int) (name : String) (h0 : arr.ndim = 0) :
    checkSorted arr ascending strict axis name = .ok () := by
  unfold checkSorted
  rw [if_pos h0]

theorem checkSorted_ok_name (arr : NDArray) (ascending strict : Bool)
    (axis : Option Int) (n1 n2 : String) :
    checkSorted arr ascending strict axis n1 = .ok () ↔
      checkSorted arr ascending strict axis n2 = .ok () := by
  have hres : ∀ (b : NDArray) (k : Nat),
      checkSortedResolved b ascending strict k n1 = .ok () ↔
        checkSortedResolved b ascending strict k n2 = .ok () := by
    intro b k
    rw [checkSortedResolved_ok_iff, checkSortedResolved_ok_iff]
  unfold checkSorted
  by_cases h0 : arr.ndim = 0
  · rw [if_pos h0, if_pos h0]
  · rw [if_neg h0, if_neg h0]
    cases axis with
    | none => exact hres _ _
    | some a =>
      show (if a = -1 then _ else _) = _ ↔ (if a = -1 then _ else _) = _
      by_cases ha : a = -1
      · rw [if_pos ha, if_pos ha]
        exact hres _ _
      · rw [if_neg ha, if_neg ha]
        cases hc : checkRange (NDArray.intScalar a)
            (NDArray.intVec2 (-(arr.ndim : Int)) ((arr.ndim : Int) - 1))
            false false "Axis" with
        | error e => exact Iff.rfl
        | ok u => exact hres _ _

theorem checkRange_ok_name (arr rng : NDArray) (sl su : Bool) (n1 n2 : String) :
    checkRange arr rng sl su n1 = .ok () ↔ checkRange arr rng sl su n2 = .ok () := by
  unfold checkRange
  simp only [bind_ok_iff, checkGreaterThan_ok_iff, checkLessThan_ok_iff]

theorem checkShape_ok_iff_matchAny (arr : NDArray) (spec : ShapeArg) (name : String) :
    checkShape arr spec name = .ok () ↔
      shapeMatchAny arr.shape spec.toList = .ok true := by
  have hstep : checkShape arr spec name =
      match shapeMatchAny arr.shape spec.toList with
      | .error e => .error e
      | .ok true => .ok ()
      | .ok false =>
        .error ⟨.valueError, checkShapeErrorMsg name arr.shape spec.toList⟩ := rfl
  rw [hstep]
  split <;> simp_all

/-!
Claim theorems.
-/

/-- C9: a 0-dimensional (scalar) input passes `check_sorted` without raising,
for every combination of the ascending, strict and axis options. -/
theorem check_sorted_scalar_vacuous (arr : NDArray) (ascending strict : Bool)
    (axis : Option Int) (name : String) (h0 : arr.ndim = 0) :
    checkSorted arr ascending strict axis name = .ok () :=
  checkSorted_zero_dim arr ascending strict axis name h0

/-- Witness for C9: a concrete scalar array passes with arbitrary options. -/
theorem check_sorted_scalar_vacuous_witness :
    checkSorted (NDArray.scalar .int64 5) false true (some 7) "X" = .ok () :=
  check_sorted_scalar_vacuous (NDArray.scalar .int64 5) false true (some 7) "X" rfl

/-- C10: the empty 1-D array passes `check_sorted` for every combination of
ascending and strict: there are no adjacent pairs, so the all-pairs
comparison is vacuously true (shown for the default axis -1, for axis None,
and for explicit axis 0). -/
theorem check_sorted_empty_vacuous (arr : NDArray) (ascending strict : Bool)
    (name : String) (h : arr.shape = [0]) :
    checkSorted arr ascending strict (some (-1)) name = .ok () ∧
    checkSorted arr ascending strict none name = .ok () ∧
    checkSorted arr ascending strict (some 0) name = .ok () := by
  obtain ⟨dt, sh, data, hsz⟩ := arr
  simp only at h
  subst h
  have hd : data = [] := List.eq_nil_of_length_eq_zero (by simpa using hsz)
  subst hd
  exact ⟨rfl, rfl, rfl⟩

/-- Witness for C10: the concrete empty integer array passes. -/
theorem check_sorted_empty_vacuous_witness :
    checkSorted (NDArray.ofVec .int64 []) true true (some (-1)) "Array" = .ok () :=
  (check_sorted_empty_vacuous (NDArray.ofVec .int64 []) true true "Array" rfl).1

/-- C5 counterexample: with no strict option passed, `check_greater_than` and
`check_less_than` use their default `strict=True` and reject an array element
equal to the bound value, so the claim that the bound-comparison checks are
inclusive by default fails on the code. -/
theorem bound_checks_default_strict_cex :
    checkGreaterThan (NDArray.ofVec .int64 [0]) 0
      = .error ⟨.valueError, greaterStrictMsg "Array" 0⟩ ∧
    checkLessThan (NDArray.ofVec .int64 [0]) 0
      = .error ⟨.valueError, lessStrictMsg "Array" 0⟩ :=
  ⟨rfl, rfl⟩

/-- C5 amended: with no strict option passed, `check_sorted` accepts equal
adjacent elements and `check_range` accepts elements equal to either bound,
but `check_greater_than` and `check_less_than` default to `strict=True` and
reject elements equal to the bound; equality with the bound is accepted by
them only when `strict=False` is passed explicitly. -/
theorem defaults_inclusive_amended :
    (∀ (x : ℚ) (dt : DType), checkSorted (NDArray.ofVec dt [x, x]) = .ok ()) ∧
    (∀ (x : ℚ) (dt : DType),
      checkRange (NDArray.ofVec dt [x]) (NDArray.vec2 dt x x) = .ok ()) ∧
    (∀ (x : ℚ) (dt : DType), checkGreaterThan (NDArray.ofVec dt [x]) x ≠ .ok ()) ∧
    (∀ (x : ℚ) (dt : DType), checkLessThan (NDArray.ofVec dt [x]) x ≠ .ok ()) ∧
    (∀ (x : ℚ) (dt : DType), checkGreaterThan (NDArray.ofVec dt [x]) x false = .ok ()) ∧
    (∀ (x : ℚ) (dt : DType), checkLessThan (NDArray.ofVec dt [x]) x false = .ok ()) := by
  refine ⟨?_, ?_, ?_, ?_, ?_, ?_⟩
  · intro x dt
    rw [checkSorted_defaults, checkSortedDefaultArgs_vec2 _ rfl]
    have hxx : ((NDArray.ofVec dt [x, x]).data.getD 0 0 ≤
        (NDArray.ofVec dt [x, x]).data.getD 1 0) := le_refl x
    rw [if_pos hxx]
  · intro x dt
    rw [checkRange_ok_iff _ _ _ _ _ rfl
      (show (NDArray.vec2 dt x x).data.getD 0 0 ≤
          (NDArray.vec2 dt x x).data.getD 1 0 from le_refl x)]
    constructor <;>
      (intro y hy
       simp only [NDArray.ofVec, List.mem_singleton] at hy
       subst hy
       simp [NDArray.vec2])
  · intro x dt h
    have := (checkGreaterThan_ok_iff _ _ _ _).mp h x (by simp [NDArray.ofVec])
    simp at this
  · intro x dt h
    have := (checkLessThan_ok_iff _ _ _ _).mp h x (by simp [NDArray.ofVec])
    simp at this
  · intro x dt
    rw [checkGreaterThan_ok_iff]
    intro y hy
    simp only [NDArray.ofVec, List.mem_singleton] at hy
    subst hy
    simp
  · intro x dt
    rw [checkLessThan_ok_iff]
    intro y hy
    simp only [NDArray.ofVec, List.mem_singleton] at hy
    subst hy
    simp

/-- C4: `check_range` validates the range argument before looking at the
array: a range that is not a 2-element vector, or whose two entries are
unsorted, makes `check_range` raise an error about the range (under the name
"Range"), whatever the array contents. -/
theorem check_range_validates_range_first :
    (∀ (arr rng : NDArray) (sl su : Bool) (name : String), rng.shape ≠ [2] →
      checkRange arr rng sl su name =
        .error ⟨.valueError, checkShapeErrorMsg "Range" rng.shape [.int 2]⟩) ∧
    (∀ (arr rng : NDArray) (sl su : Bool) (name : String), rng.shape = [2] →
      rng.data.getD 1 0 < rng.data.getD 0 0 →
      checkRange arr rng sl su name =
        .error ⟨.valueError, sortedErrorMsg "Range" rng true false⟩) :=
  ⟨checkRange_shape_error, checkRange_sorted_error⟩

/-- Witness for C4: a 3-element range and an unsorted range both raise an
error about the range on a concrete array. -/
theorem check_range_validates_range_first_witness :
    checkRange (NDArray.ofVec .int64 [5]) (NDArray.ofVec .int64 [1, 2, 3])
        false false "Array"
      = .error ⟨.valueError,
          checkShapeErrorMsg "Range" [3] [.int 2]⟩ ∧
    checkRange (NDArray.ofVec .int64 [5]) (NDArray.vec2 .int64 3 1)
        false false "Array"
      = .error ⟨.valueError,
          sortedErrorMsg "Range" (NDArray.vec2 .int64 3 1) true false⟩ :=
  ⟨check_range_validates_range_first.1 (NDArray.ofVec .int64 [5])
      (NDArray.ofVec .int64 [1, 2, 3]) false false "Array" (by decide),
    check_range_validates_range_first.2 (NDArray.ofVec .int64 [5])
      (NDArray.vec2 .int64 3 1) false false "Array" rfl (by decide)⟩

/-- C1: for every array and every shape specification with valid entries,
`check_shape` succeeds iff some allowed alternative has length equal to the
number of dimensions and matches every axis exactly or via the wildcard -1;
the spec `(-1, 3)` accepts every array of shape `(n, 3)` and rejects every
array of shape `(n, 4)`; and when no alternative matches, the raised
ValueError message lists the allowed alternatives. -/
theorem check_shape_spec :
    (∀ (arr : NDArray) (spec : ShapeArg) (name : String),
      (∀ s ∈ spec.toList, s.valid = true) →
      (checkShape arr spec name = .ok () ↔
        ∃ s ∈ spec.toList, specShapeMatches arr.shape s.toTuple)) ∧
    (∀ (arr : NDArray) (spec : ShapeArg) (name : String),
      (∀ s ∈ spec.toList, s.valid = true) →
      (¬∃ s ∈ spec.toList, specShapeMatches arr.shape s.toTuple) →
      checkShape arr spec name =
        .error ⟨.valueError, checkShapeErrorMsg name arr.shape spec.toList⟩) ∧
    (∀ (arr : NDArray) (n : Nat), arr.shape = [n, 3] →
      checkShape arr (.single (.tup [-1, 3])) "Array" = .ok ()) ∧
    (∀ (arr : NDArray) (n : Nat), arr.shape = [n, 4] →
      checkShape arr (.single (.tup [-1, 3])) "Array" ≠ .ok ()) := by
  have hany : ∀ (arr : NDArray) (spec : ShapeArg),
      (spec.toList.any fun s => shapeIsAllowed arr.shape s.toTuple) = true ↔
        ∃ s ∈ spec.toList, specShapeMatches arr.shape s.toTuple := by
    intro arr spec
    rw [List.any_eq_true]
    constructor
    · rintro ⟨s, hs, hm⟩
      exact ⟨s, hs, (shapeIsAllowed_iff _ _).mp hm⟩
    · rintro ⟨s, hs, hm⟩
      exact ⟨s, hs, (shapeIsAllowed_iff _ _).mpr hm⟩
  have part1 : ∀ (arr : NDArray) (spec : ShapeArg) (name : String),
      (∀ s ∈ spec.toList, s.valid = true) →
      (checkShape arr spec name = .ok () ↔
        ∃ s ∈ spec.toList, specShapeMatches arr.shape s.toTuple) := by
    intro arr spec name hv
    rw [checkShape_eq_of_valid arr spec name hv, ← hany arr spec]
    by_cases hb : (spec.toList.any fun s => shapeIsAllowed arr.shape s.toTuple) = true
    · simp [hb]
    · simp only [Bool.not_eq_true] at hb
      simp [hb]
  refine ⟨part1, ?_, ?_, ?_⟩
  · intro arr spec name hv hne
    rw [checkShape_eq_of_valid arr spec name hv,
      if_neg (fun hc => hne ((hany arr spec).mp hc))]
  · intro arr n h
    refine (part1 arr (.single (.tup [-1, 3])) "Array" (by decide)).mpr
      ⟨.tup [-1, 3], by simp [ShapeArg.toList], ?_⟩
    constructor
    · simp [h, ShapeLike.toTuple]
    · intro k hk
      have hk2 : k < 2 := by simpa [ShapeLike.toTuple] using hk
      interval_cases k <;> simp [h, ShapeLike.toTuple]
  · intro arr n h hok
    obtain ⟨s, hs, hm⟩ := (part1 arr (.single (.tup [-1, 3])) "Array" (by decide)).mp hok
    simp only [ShapeArg.toList, List.mem_singleton] at hs
    subst hs
    obtain ⟨-, hb⟩ := hm
    have := hb 1 (by simp [ShapeLike.toTuple])
    simp [h, ShapeLike.toTuple] at this

/-- Witness for C1: a concrete 2x3 array passes the `(-1, 3)` spec, and a
concrete 1-D array is rejected with the message listing the alternatives. -/
theorem check_shape_spec_witness :
    checkShape (⟨.int64, [2, 3], [0, 0, 0, 0, 0, 0], rfl⟩ : NDArray)
        (.single (.tup [-1, 3])) "Array" = .ok () ∧
    checkShape (NDArray.ofVec .int64 [1, 2]) (.single (.tup [-1, 3])) "Array"
      = .error ⟨.valueError,
          checkShapeErrorMsg "Array" [2] [.tup [-1, 3]]⟩ :=
  ⟨check_shape_spec.2.2.1 _ 2 rfl,
    check_shape_spec.2.1 (NDArray.ofVec .int64 [1, 2]) (.single (.tup [-1, 3]))
      "Array" (by decide)
      (by
        rintro ⟨s, hs, hm⟩
        simp only [ShapeArg.toList, List.mem_singleton] at hs
        subst hs
        obtain ⟨hlen, -⟩ := hm
        simp [NDArray.ofVec, ShapeLike.toTuple] at hlen)⟩

/-- C3: for every sorted 2-element range, `check_range` succeeds iff every
element respects the lower bound (strictly when `strict_lower`) and the upper
bound (strictly when `strict_upper`); `[1,2,3]` passes the range `[1,3]` and
fails it with `strict_upper=True` because 3 is not strictly less than 3. -/
theorem check_range_bounds :
    (∀ (arr : NDArray) (dt : DType) (lo hi : ℚ) (sl su : Bool) (name : String),
      lo ≤ hi →
      (checkRange arr (NDArray.vec2 dt lo hi) sl su name = .ok () ↔
        ∀ x ∈ arr.data,
          (if sl then lo < x else lo ≤ x) ∧ (if su then x < hi else x ≤ hi))) ∧
    checkRange (NDArray.ofVec .int64 [1, 2, 3]) (NDArray.vec2 .int64 1 3) = .ok () ∧
    checkRange (NDArray.ofVec .int64 [1, 2, 3]) (NDArray.vec2 .int64 1 3) false true
      = .error ⟨.valueError, lessStrictMsg "Array" 3⟩ := by
  refine ⟨?_, rfl, rfl⟩
  intro arr dt lo hi sl su name hlohi
  rw [checkRange_ok_iff _ _ _ _ _ rfl
    (show (NDArray.vec2 dt lo hi).data.getD 0 0 ≤
        (NDArray.vec2 dt lo hi).data.getD 1 0 from hlohi)]
  constructor
  · rintro ⟨h1, h2⟩ x hx
    exact ⟨h1 x hx, h2 x hx⟩
  · intro hb
    exact ⟨fun x hx => (hb x hx).1, fun x hx => (hb x hx).2⟩

/-- Witness for C3: the concrete array `[2]` lies strictly inside `[1, 3]`. -/
theorem check_range_bounds_witness :
    checkRange (NDArray.ofVec .int64 [2]) (NDArray.vec2 .int64 1 3) true true
        "Array" = .ok () :=
  (check_range_bounds.1 (NDArray.ofVec .int64 [2]) .int64 1 3 true true "Array"
    (by norm_num)).mpr (by
      intro x hx
      simp only [NDArray.ofVec, List.mem_singleton] at hx
      subst hx
      norm_num)

/-- C7: `check_real` succeeds iff the dtype is a subtype of floating or
integer; it raises a TypeError for every complex-dtype array and for every
boolean-dtype array, while `check_numeric` succeeds iff the dtype is a
subtype of number, which additionally accepts complex dtypes. -/
theorem real_vs_numeric_dtypes :
    (∀ (arr : NDArray) (name : String),
      (checkReal arr name = .ok () ↔
        (npIssubdtype arr.dtype .floating = true ∨
          npIssubdtype arr.dtype .integer = true))) ∧
    (∀ (arr : NDArray) (name : String), arr.dtype.isComplex = true →
      checkReal arr name = .error ⟨.typeError, name ++ " must have real numbers."⟩) ∧
    (∀ (arr : NDArray) (name : String), arr.dtype = .bool_ →
      checkReal arr name = .error ⟨.typeError, name ++ " must have real numbers."⟩) ∧
    (∀ (arr : NDArray) (name : String),
      (checkNumeric arr name = .ok () ↔ npIssubdtype arr.dtype .number = true)) ∧
    (∀ (arr : NDArray) (name : String), arr.dtype.isComplex = true →
      checkNumeric arr name = .ok ()) := by
  refine ⟨?_, ?_, ?_, ?_, ?_⟩
  · intro arr name
    rw [checkReal_ok_iff]
    simp [npIssubdtype, Bool.or_eq_true]
  · intro arr name hc
    refine checkReal_error arr name ?_
    cases hd : arr.dtype <;> rw [hd] at hc <;>
      simp_all [DType.isComplex, DType.isFloating, DType.isInteger]
  · intro arr name hb
    refine checkReal_error arr name ?_
    rw [hb]
    rfl
  · intro arr name
    exact checkNumeric_ok_iff arr name
  · intro arr name hc
    rw [checkNumeric_ok_iff]
    cases hd : arr.dtype <;> rw [hd] at hc <;>
      simp_all [npIssubdtype, DType.isComplex, DType.isFloating, DType.isInteger]

/-- Witness for C7: a concrete complex array fails `check_real` with a
TypeError but passes `check_numeric`. -/
theorem real_vs_numeric_dtypes_witness :
    checkReal (NDArray.ofVec .complex128 [0]) "Array"
      = .error ⟨.typeError, "Array" ++ " must have real numbers."⟩ ∧
    checkNumeric (NDArray.ofVec .complex128 [0]) "Array" = .ok () :=
  ⟨real_vs_numeric_dtypes.2.1 (NDArray.ofVec .complex128 [0]) "Array" rfl,
    real_vs_numeric_dtypes.2.2.2.2 (NDArray.ofVec .complex128 [0]) "Array" rfl⟩

/-- C8: `check_integerlike` with `strict=True` succeeds iff the dtype is a
true integer subtype, raising a TypeError for any float dtype whatever the
values; with `strict=False` it succeeds iff every element equals its own
floor, raising a ValueError when some element is fractional. -/
theorem integerlike_spec :
    (∀ (arr : NDArray) (name : String),
      (checkIntegerlike arr true name = .ok () ↔
        npIssubdtype arr.dtype .integer = true)) ∧
    (∀ (arr : NDArray) (name : String), arr.dtype.isFloating = true →
      checkIntegerlike arr true name =
        .error ⟨.typeError, subdtypeErrorMsg "Input" arr.dtype [.integer]⟩) ∧
    (∀ (arr : NDArray) (name : String),
      (checkIntegerlike arr false name = .ok () ↔ ∀ x ∈ arr.data, x = (⌊x⌋ : ℚ))) ∧
    (∀ (arr : NDArray) (name : String), (∃ x ∈ arr.data, x ≠ (⌊x⌋ : ℚ)) →
      checkIntegerlike arr false name =
        .error ⟨.valueError, name ++ " must have integer-like values."⟩) := by
  refine ⟨?_, ?_, ?_, ?_⟩
  · intro arr name
    rw [checkIntegerlike_strict_eq, checkSubdtype_ok_iff]
    simp [npIssubdtype]
  · intro arr name hf
    rw [checkIntegerlike_strict_eq, checkSubdtype_integer,
      if_neg (show ¬arr.dtype.isInteger = true by
        cases hd : arr.dtype <;> rw [hd] at hf <;>
          simp_all [DType.isFloating, DType.isInteger])]
  · intro arr name
    exact checkIntegerlike_nonstrict_iff arr name
  · intro arr name hex
    refine checkIntegerlike_nonstrict_error arr name ?_
    rintro hall
    obtain ⟨x, hx, hne⟩ := hex
    exact hne (hall x hx)

/-- Witness for C8: the concrete float array `[1, 5/2]` has a fractional
element and fails the non-strict check with a ValueError, and an
integer-valued float array fails the strict check with a TypeError. -/
theorem integerlike_spec_witness :
    checkIntegerlike (NDArray.ofVec .float64 [1, 5/2]) false "Array"
      = .error ⟨.valueError, "Array" ++ " must have integer-like values."⟩ ∧
    checkIntegerlike (NDArray.ofVec .float64 [1, 2]) true "Array"
      = .error ⟨.typeError, subdtypeErrorMsg "Input" .float64 [.integer]⟩ :=
  ⟨integerlike_spec.2.2.2 (NDArray.ofVec .float64 [1, 5/2]) "Array"
      ⟨5/2, by simp [NDArray.ofVec], by
        have h52 : ⌊(5/2 : ℚ)⌋ = 2 := by norm_num [Rat.floor_def]
        rw [h52]
        norm_num⟩,
    integerlike_spec.2.1 (NDArray.ofVec .float64 [1, 2]) "Array" rfl⟩

/-- C6: the name parameter is used only in error messages: each checker
succeeds under one name iff it succeeds under any other name, for every
input. -/
theorem name_never_changes_validation (n1 n2 : String) :
    (∀ (arr : NDArray) (spec : ShapeArg),
      (checkShape arr spec n1 = .ok () ↔ checkShape arr spec n2 = .ok ())) ∧
    (∀ (arr : NDArray) (ascending strict : Bool) (axis : Option Int),
      (checkSorted arr ascending strict axis n1 = .ok () ↔
        checkSorted arr ascending strict axis n2 = .ok ())) ∧
    (∀ (arr rng : NDArray) (sl su : Bool),
      (checkRange arr rng sl su n1 = .ok () ↔
        checkRange arr rng sl su n2 = .ok ())) ∧
    (∀ (arr : NDArray) (value : ℚ) (strict : Bool),
      (checkGreaterThan arr value strict n1 = .ok () ↔
        checkGreaterThan arr value strict n2 = .ok ())) ∧
    (∀ (arr : NDArray) (value : ℚ) (strict : Bool),
      (checkLessThan arr value strict n1 = .ok () ↔
        checkLessThan arr value strict n2 = .ok ())) ∧
    (∀ arr : NDArray, (checkReal arr n1 = .ok () ↔ checkReal arr n2 = .ok ())) ∧
    (∀ arr : NDArray,
      (checkNumeric arr n1 = .ok () ↔ checkNumeric arr n2 = .ok ())) ∧
    (∀ (arr : NDArray) (strict : Bool),
      (checkIntegerlike arr strict n1 = .ok () ↔
        checkIntegerlike arr strict n2 = .ok ())) ∧
    (∀ (d : DType) (bases : List DTypeBase),
      (checkSubdtype d bases n1 = .ok () ↔ checkSubdtype d bases n2 = .ok ())) := by
  refine ⟨?_, ?_, ?_, ?_, ?_, ?_, ?_, ?_, ?_⟩
  · intro arr spec
    rw [checkShape_ok_iff_matchAny, checkShape_ok_iff_matchAny]
  · intro arr ascending strict axis
    exact checkSorted_ok_name arr ascending strict axis n1 n2
  · intro arr rng sl su
    exact checkRange_ok_name arr rng sl su n1 n2
  · intro arr value strict
    rw [checkGreaterThan_ok_iff, checkGreaterThan_ok_iff]
  · intro arr value strict
    rw [checkLessThan_ok_iff, checkLessThan_ok_iff]
  · intro arr
    rw [checkReal_ok_iff, checkReal_ok_iff]
  · intro arr
    rw [checkNumeric_ok_iff, checkNumeric_ok_iff]
  · intro arr strict
    cases strict with
    | true => exact Iff.rfl
    | false => rw [checkIntegerlike_nonstrict_iff, checkIntegerlike_nonstrict_iff]
  · intro d bases
    rw [checkSubdtype_ok_iff, checkSubdtype_ok_iff]

/-- C2: for every non-scalar array and in-bounds axis, `check_sorted`
succeeds exactly when the chosen pairwise relation (selected by ascending and
strict) holds for every adjacent pair along the normalized axis; with
`axis=None` the array is flattened first and the pairs are the consecutive
data elements; and the four concrete examples behave as stated. -/
theorem check_sorted_pairwise :
    (∀ (arr : NDArray) (ascending strict : Bool) (a : Int) (name : String),
      arr.ndim ≠ 0 → -(arr.ndim : Int) ≤ a → a ≤ (arr.ndim : Int) - 1 →
      (checkSorted arr ascending strict (some a) name = .ok () ↔
        sortedSpec arr (if a < 0 then (arr.ndim : Int) + a else a).toNat
          (specRel ascending strict))) ∧
    (∀ (arr : NDArray) (ascending strict : Bool) (name : String),
      arr.ndim ≠ 0 →
      (checkSorted arr ascending strict none name = .ok () ↔
        ∀ i, i + 1 < arr.data.length →
          specRel ascending strict (arr.data.getD i 0)
            (arr.data.getD (i + 1) 0))) ∧
    checkSorted (NDArray.ofVec .int64 [1, 2, 2, 3]) true false (some (-1))
        "Array" = .ok () ∧
    checkSorted (NDArray.ofVec .int64 [1, 2, 2, 3]) true true (some (-1)) "Array"
      = .error ⟨.valueError,
          sortedErrorMsg "Array" (NDArray.ofVec .int64 [1, 2, 2, 3]) true true⟩ ∧
    checkSorted (NDArray.ofVec .int64 [3, 2, 2, 1]) false false (some (-1))
        "Array" = .ok () ∧
    checkSorted (NDArray.ofVec .int64 [3, 2, 2, 1]) false true (some (-1)) "Array"
      = .error ⟨.valueError,
          sortedErrorMsg "Array" (NDArray.ofVec .int64 [3, 2, 2, 1]) false true⟩ := by
  refine ⟨?_, ?_, rfl, rfl, rfl, rfl⟩
  · intro arr ascending strict a name h0 h1 h2
    rw [checkSorted_someAxis arr ascending strict a name h0 h1 h2,
      checkSortedResolved_ok_iff]
  · intro arr ascending strict name h0
    rw [checkSorted_none_eq arr ascending strict name h0,
      checkSortedResolved_ok_iff,
      sortedSpec_oneD arr.flatten arr.data.length rfl]
    exact Iff.rfl

/-- Witness for C2: from the computed success on the concrete array
`[1, 2, 2, 3]`, the theorem yields the spec-level pairwise sortedness along
the normalized axis, and the flattened form for a concrete 2x2 array. -/
theorem check_sorted_pairwise_witness :
    sortedSpec (NDArray.ofVec .int64 [1, 2, 2, 3]) 0 (specRel true false) ∧
    (∀ i, i + 1 < (⟨.int64, [2, 2], [1, 2, 3, 4], rfl⟩ : NDArray).data.length →
      specRel true false
        ((⟨.int64, [2, 2], [1, 2, 3, 4], rfl⟩ : NDArray).data.getD i 0)
        ((⟨.int64, [2, 2], [1, 2, 3, 4], rfl⟩ : NDArray).data.getD (i + 1) 0)) := by
  constructor
  · have h := (check_sorted_pairwise.1 (NDArray.ofVec .int64 [1, 2, 2, 3]) true
      false (-1) "Array" (by decide) (by decide) (by decide)).mp (by decide)
    have e : ((if (-1 : Int) < 0
        then ((NDArray.ofVec .int64 [1, 2, 2, 3]).ndim : Int) + -1
        else -1)).toNat = 0 := by decide
    rw [e] at h
    exact h
  · exact (check_sorted_pairwise.2.1 (⟨.int64, [2, 2], [1, 2, 3, 4], rfl⟩ : NDArray)
      true false "Array" (by decide)).mp (by decide)
